import Mathlib

/-!
Shallow embedding of the cost and recommendation engine of the
data-stack-simulator repository: `src/utils/calculations.py` together with
the static catalog of `src/utils/constants.py`.

Modelling conventions:
* Python floats are modelled as exact rationals (`ℚ`), except for the
  monthly-growth formula, which computes a real 12th root (`**` on floats)
  and is therefore modelled over `ℝ` with `Real.rpow`.
* `math.ceil` is `Int.ceil`; Python `int()` truncation toward zero is
  `truncatePy`.
* Python `min(..., key=k)` / `max(..., key=k)` return the first extremal
  element (`pyMinBy` / `pyMaxBy`); `sorted` / `list.sort` are stable and
  are modelled by stable insertion sort (`pySortBy`).
* Operations that can raise (`list[0]` on an empty list, `next` on an
  exhausted iterator) are modelled with `Option`; a raised exception is
  `none`.
* Python dictionaries of tools keep only the fields the engine reads
  (`name`, `base_price`, `complexity`, `seat_cost` with its `.get` default
  of 0); the purely descriptive fields (`pricing`, `pros`, ...) are not
  read anywhere in the engine.
-/

namespace DataStack

/-- A tool record of `TOOLS_DATA` (constants.py), restricted to the fields
the engine reads.  `seat_cost` defaults to 0, mirroring
`tool.get('seat_cost', 0)` in calculations.py line 240. -/
structure Tool where
  name : String
  base_price : ℚ
  complexity : ℚ
  seat_cost : ℚ := 0
  deriving DecidableEq, Repr

/- `TOOLS_DATA['extraction']` (constants.py lines 195-266), in catalog order:
Fivetran, Rivery, Stitch, Airbyte. -/

def fivetran : Tool := { name := "Fivetran", base_price := 500, complexity := 2 }

def rivery : Tool := { name := "Rivery", base_price := 200, complexity := 2 }

def stitch : Tool := { name := "Stitch", base_price := 400, complexity := 1 }

def airbyte : Tool := { name := "Airbyte", base_price := 300, complexity := 3 }

def TOOLS_DATA_extraction : List Tool := [fivetran, rivery, stitch, airbyte]

/- `TOOLS_DATA['modeling']` (constants.py lines 267-290): dbt, Dataform. -/

def dbt : Tool := { name := "dbt", base_price := 100, complexity := 2 }

def dataform : Tool := { name := "Dataform", base_price := 250, complexity := 2 }

def TOOLS_DATA_modeling : List Tool := [dbt, dataform]

/- `TOOLS_DATA['warehousing']` (constants.py lines 291-344):
Snowflake, BigQuery, Redshift. -/

def snowflake : Tool := { name := "Snowflake", base_price := 1000, complexity := 2 }

def bigquery : Tool := { name := "BigQuery", base_price := 800, complexity := 1 }

def redshift : Tool := { name := "Redshift", base_price := 1200, complexity := 3 }

def TOOLS_DATA_warehousing : List Tool := [snowflake, bigquery, redshift]

/- `TOOLS_DATA['visualization']` (constants.py lines 345-407):
Tableau, Power BI, Looker Studio, Looker Enterprise. -/

def tableau : Tool := { name := "Tableau", base_price := 70, complexity := 2, seat_cost := 70 }

def powerBI : Tool := { name := "Power BI", base_price := 20, complexity := 2, seat_cost := 20 }

def lookerStudio : Tool := { name := "Looker Studio", base_price := 0, complexity := 1, seat_cost := 0 }

def lookerEnterprise : Tool :=
  { name := "Looker Enterprise", base_price := 3000, complexity := 3, seat_cost := 100 }

def TOOLS_DATA_visualization : List Tool := [tableau, powerBI, lookerStudio, lookerEnterprise]

/-! Python-semantics helpers. -/

/-- Python `a or b` on optional strings: `None` and `''` are falsy. -/
def pyOr (a b : Option String) : Option String :=
  match a with
  | none => b
  | some s => if s = "" then b else some s

/-- Python `min(l, key=key)`: first element attaining the minimal key
(`min` keeps the earlier element on ties).  `none` models the `ValueError`
raised on an empty list. -/
def pyMinBy {α : Type} (key : α → ℚ) : List α → Option α
  | [] => none
  | x :: xs => some (xs.foldl (fun acc t => if key t < key acc then t else acc) x)

/-- Python `max(l, key=key)`: first element attaining the maximal key. -/
def pyMaxBy {α : Type} (key : α → ℚ) : List α → Option α
  | [] => none
  | x :: xs => some (xs.foldl (fun acc t => if key t > key acc then t else acc) x)

/-- Stable insertion step: place `a` before the first element whose key is
strictly larger, keeping earlier elements first on ties. -/
def orderedInsertBy {α : Type} (key : α → ℚ) (a : α) : List α → List α
  | [] => [a]
  | b :: l => if key a ≤ key b then a :: b :: l else b :: orderedInsertBy key a l

/-- Python `sorted(l, key=key)` / `l.sort(key=key)`: a stable sort,
modelled by insertion sort (which is stable, hence extensionally equal to
Timsort on any input). -/
def pySortBy {α : Type} (key : α → ℚ) (l : List α) : List α :=
  l.foldr (orderedInsertBy key) []

/-- Python `int()` truncation toward zero on an exact rational. -/
def truncatePy (q : ℚ) : ℤ :=
  if 0 ≤ q then ⌊q⌋ else ⌈q⌉

/-! Cloud providers (`CLOUD_PROVIDERS`, constants.py lines 34-191).
Only the rates read by `calculate_detailed_cloud_costs` are kept:
per-GB storage rates of the three tiers each branch reads, the medium
instance hourly rate, and the per-million-records processing rate. -/

/-- `provider_key in CLOUD_PROVIDERS` (the table has keys aws, gcp, azure). -/
def validProviderKey (k : String) : Bool :=
  k = "aws" || k = "gcp" || k = "azure"

/-- Lines 10-12 of calculations.py: `if not provider_key or provider_key
not in CLOUD_PROVIDERS: provider_key = 'aws'`.  `none` and `""` are falsy
and `""` is also not a table key, so both collapse to the membership test. -/
def resolveProviderKey (provider_key : Option String) : String :=
  match provider_key with
  | none => "aws"
  | some k => if validProviderKey k then k else "aws"

/-- `CLOUD_PROVIDERS[key]['compute']['instances']['medium']['cost_per_hour']`:
aws m5.large 0.096, gcp n1-standard-2 0.095, azure D2s_v3 0.096. -/
def mediumInstanceRate (K : Type) [LinearOrderedField K] (key : String) : K :=
  if key = "aws" then 96 / 1000 else if key = "gcp" then 95 / 1000 else 96 / 1000

/-- `CLOUD_PROVIDERS[key]['compute']['data_processing']`:
aws 0.048, gcp 0.045, azure 0.046 per million records. -/
def dataProcessingRate (K : Type) [LinearOrderedField K] (key : String) : K :=
  if key = "aws" then 48 / 1000 else if key = "gcp" then 45 / 1000 else 46 / 1000

/-- Result dictionary of `calculate_detailed_cloud_costs`. -/
structure CloudCosts (K : Type) where
  storage_costs : List (String × K)
  compute_instance : K
  compute_processing : K
  total_storage_cost : K
  total_compute_cost : K
  total_cost : K
  deriving DecidableEq

/-- `calculate_detailed_cloud_costs` (calculations.py lines 6-58),
polymorphic over the numeric field so it can be used both at `ℚ`
(decidable claims) and at `ℝ` (inside `calculate_costs`).
Storage split: 70% hot, 20% warm, 10% cold; per-tier rates are the
`cost_per_gb` entries of constants.py; compute is the medium instance for
720 hours plus the per-million-records processing rate.
`historical_records` is accepted and unused, exactly as in the source. -/
def calculate_detailed_cloud_costs {K : Type} [LinearOrderedField K]
    (provider_key : Option String) (storage_gb monthly_records historical_records : K) :
    CloudCosts K :=
  let key := resolveProviderKey provider_key
  let storage_costs : List (String × K) :=
    if key = "aws" then
      [("standard", storage_gb * (7 / 10) * (23 / 1000)),
       ("ia", storage_gb * (2 / 10) * (125 / 10000)),
       ("glacier", storage_gb * (1 / 10) * (4 / 1000))]
    else if key = "gcp" then
      [("standard", storage_gb * (7 / 10) * (204 / 10000)),
       ("nearline", storage_gb * (2 / 10) * (102 / 10000)),
       ("coldline", storage_gb * (1 / 10) * (4 / 1000))]
    else
      [("hot", storage_gb * (7 / 10) * (184 / 10000)),
       ("cool", storage_gb * (2 / 10) * (1 / 100)),
       ("archive", storage_gb * (1 / 10) * (99 / 100000))]
  let compute_hours : K := 24 * 30
  let instance_cost := mediumInstanceRate K key * compute_hours
  let processing_cost := monthly_records / 1000000 * dataProcessingRate K key
  let total_storage := (storage_costs.map Prod.snd).sum
  let total_compute := instance_cost + processing_cost
  { storage_costs := storage_costs
    compute_instance := instance_cost
    compute_processing := processing_cost
    total_storage_cost := total_storage
    total_compute_cost := total_compute
    total_cost := total_storage + total_compute }

/-- `calculate_extraction_cost` (calculations.py lines 61-71):
`ceil(monthly_records/1000)` thousands of rows, then a per-thousand rate
keyed on the tool name, with the unguarded `else` branch charging the
Airbyte rate 0.30 to every other name. -/
def calculate_extraction_cost (tool : Tool) (monthly_records : ℚ) : ℚ :=
  let rows_in_thousands : ℤ := ⌈monthly_records / 1000⌉
  if tool.name = "Fivetran" then tool.base_price + (rows_in_thousands : ℚ) * (5 / 10)
  else if tool.name = "Stitch" then tool.base_price + (rows_in_thousands : ℚ) * (4 / 10)
  else tool.base_price + (rows_in_thousands : ℚ) * (3 / 10)

/-- `recommend_cloud_provider` (calculations.py lines 145-156). -/
def recommend_cloud_provider (data_volume growth_rate : ℚ) : String :=
  if data_volume > 10000000 then
    if growth_rate > 50 then "gcp" else "aws"
  else
    if growth_rate > 50 then "gcp" else "azure"

/-- The infrastructure record: `type` together with the optional
`provider` / `preferred_provider` keys. -/
structure Infrastructure where
  type : String
  provider : Option String := none
  preferred_provider : Option String := none
  deriving DecidableEq, Repr

/-! The recommendation engine (`get_stack_recommendations`,
calculations.py lines 159-271). -/

/-- Warehousing filter loop (calculations.py lines 166-174): gcp keeps
BigQuery only, aws keeps Snowflake only, azure keeps both BigQuery and
Snowflake, any other provider keeps nothing.  Appending in catalog order
is the same as filtering. -/
def warehousingOptions (provider : Option String) : List Tool :=
  TOOLS_DATA_warehousing.filter fun w =>
    (provider == some "gcp" && w.name == "BigQuery") ||
    (provider == some "aws" && w.name == "Snowflake") ||
    (provider == some "azure" && (w.name == "BigQuery" || w.name == "Snowflake"))

/-- `get_extraction_tool` (calculations.py lines 176-195): simple picks the
min of {Airbyte, Stitch} by `base_price + complexity*50`; balanced and
advanced take the cheaper resp. dearer of {Fivetran, Rivery} by base price. -/
def get_extraction_tool (level : String) : Option Tool :=
  let tools := TOOLS_DATA_extraction
  if level = "simple" then
    let simple_tools := tools.filter fun t => t.name == "Airbyte" || t.name == "Stitch"
    pyMinBy (fun x => x.base_price + x.complexity * 50) simple_tools
  else
    let premium_tools := tools.filter fun t => t.name == "Fivetran" || t.name == "Rivery"
    let sorted_premium := pySortBy (fun x => x.base_price) premium_tools
    if level = "balanced" then sorted_premium[0]? else sorted_premium[1]?

/-- `get_modeling_tool` (calculations.py lines 197-205): simple is the min
by base price, advanced the max by complexity, balanced the element at
index 1 of the list sorted by `base_price + complexity*100`. -/
def get_modeling_tool (level : String) : Option Tool :=
  let tools := TOOLS_DATA_modeling
  if level = "simple" then pyMinBy (fun x => x.base_price) tools
  else if level = "advanced" then pyMaxBy (fun x => x.complexity) tools
  else (pySortBy (fun x => x.base_price + x.complexity * 100) tools)[1]?

/-- The `stack` mapping of one recommendation; `modeling` is `none` when it
was popped by `exclude_modeling`. -/
structure Stack where
  extraction : Tool
  modeling : Option Tool
  warehousing : Tool
  visualization : Tool
  deriving DecidableEq, Repr

/-- The `costs` mapping of one recommendation; `modeling` is `none` when
the key is absent. -/
structure StackCosts where
  extraction : ℚ
  warehousing : ℚ
  visualization : ℚ
  modeling : Option ℚ
  total : ℚ
  deriving DecidableEq, Repr

/-- One entry of the list returned by `get_stack_recommendations`. -/
structure Recommendation where
  level : String
  stack : Stack
  costs : StackCosts
  modeling_note : Option String
  deriving DecidableEq, Repr

instance : Inhabited Recommendation :=
  ⟨{ level := "", stack := ⟨fivetran, none, fivetran, fivetran⟩,
     costs := ⟨0, 0, 0, none, 0⟩, modeling_note := none }⟩

/-- Body of the per-level loop (calculations.py lines 230-263): build the
working stack (popping modeling when excluded), the per-layer cost
dictionary, its total, and the Rivery note. -/
def buildRec (level : String) (ext mdl wh viz : Tool) (monthly_active_rows : ℚ)
    (monthly_models : ℤ) (visualization_seats : ℕ) (exclude_modeling : Bool) :
    Recommendation :=
  let stack_modeling := if exclude_modeling then none else some mdl
  let c_ext := calculate_extraction_cost ext monthly_active_rows
  let c_wh := wh.base_price
  let c_viz := viz.seat_cost * (visualization_seats : ℚ)
  let c_mod : Option ℚ :=
    if exclude_modeling then none
    else some ((monthly_models : ℚ) * (1 / 10000) + mdl.base_price)
  let total := c_ext + c_wh + c_viz + c_mod.getD 0
  let note : Option String :=
    if ext.name = "Rivery" then
      some "Rivery provides built-in data modeling capabilities that can be leveraged without additional tools."
    else none
  { level := level
    stack := ⟨ext, stack_modeling, wh, viz⟩
    costs := ⟨c_ext, c_wh, c_viz, c_mod, total⟩
    modeling_note := note }

/-- Sort key of line 266: `x['costs']['total']`. -/
def totalKey (r : Recommendation) : ℚ := r.costs.total

/-- Line 266: stable sort of the recommendations by ascending total. -/
def sortByTotal (l : List Recommendation) : List Recommendation :=
  pySortBy totalKey l

/-- Lines 267-269: if position 0 is not the simple stack, find the simple
entry and swap it into position 0.  `none` models the exceptions the
source can raise there (`recommendations[0]` on an empty list,
`next` finding no simple entry). -/
def ensureSimpleFirst (l : List Recommendation) : Option (List Recommendation) :=
  match l with
  | [] => none
  | r0 :: rest =>
    if r0.level = "simple" then some (r0 :: rest)
    else
      match (r0 :: rest).findIdx? (fun r => r.level == "simple") with
      | none => none
      | some i =>
        match (r0 :: rest)[i]? with
        | none => none
        | some ri => some (((r0 :: rest).set 0 ri).set i r0)

/-- `get_stack_recommendations` (calculations.py lines 159-271).  The input
`total_records_per_month` is the `costs['total_records_per_month']` field
read on lines 161-162.  Returns `none` exactly when the source raises
(an unrecognized or missing provider leaves `warehousing_options` empty and
line 212 raises IndexError). -/
def get_stack_recommendations (total_records_per_month : ℚ)
    (infrastructure : Infrastructure) (visualization_seats : ℕ)
    (exclude_modeling : Bool) : Option (List Recommendation) := do
  let monthly_active_rows := total_records_per_month
  let monthly_models : ℤ := truncatePy (total_records_per_month / 1000)
  let provider := pyOr infrastructure.provider infrastructure.preferred_provider
  let warehousing_options := warehousingOptions provider
  let ext_s ← get_extraction_tool "simple"
  let ext_b ← get_extraction_tool "balanced"
  let ext_a ← get_extraction_tool "advanced"
  let mod_s ← get_modeling_tool "simple"
  let mod_b ← get_modeling_tool "balanced"
  let mod_a ← get_modeling_tool "advanced"
  let wh ← warehousing_options[0]?
  let viz_s ← TOOLS_DATA_visualization.find? fun t => t.name == "Looker Studio"
  let viz_b ← TOOLS_DATA_visualization.find? fun t => t.name == "Power BI"
  let viz_a ← TOOLS_DATA_visualization.find? fun t => t.name == "Looker Enterprise"
  let recommendations :=
    [buildRec "simple" ext_s mod_s wh viz_s monthly_active_rows monthly_models
       visualization_seats exclude_modeling,
     buildRec "balanced" ext_b mod_b wh viz_b monthly_active_rows monthly_models
       visualization_seats exclude_modeling,
     buildRec "advanced" ext_a mod_a wh viz_a monthly_active_rows monthly_models
       visualization_seats exclude_modeling]
  ensureSimpleFirst (sortByTotal recommendations)

/-! `calculate_costs` (calculations.py lines 74-142).  The per-source loop
computes a compounding monthly growth rate with a real 12th root
(`(1 + yearly_growth_rate) ** (1 / 12)` on floats), so this part of the
engine is modelled over `ℝ` with `Real.rpow`; these definitions are
necessarily noncomputable. -/

/-- Lines 91-94: `monthly_rate = (1 + yearly_growth/100)^(1/12) - 1`,
`monthly_records = daily * 30 * (1 + monthly_rate)`. -/
noncomputable def monthlyRecords (daily growth_percent : ℝ) : ℝ :=
  let yearly_growth_rate := growth_percent / 100
  let monthly_growth_rate := (1 + yearly_growth_rate) ^ ((1 : ℝ) / 12) - 1
  daily * 30 * (1 + monthly_growth_rate)

/-- The four keys of `DATA_CATEGORIES` (constants.py lines 2-31). -/
inductive DataSource
  | transactional
  | product
  | marketing
  | customer
  deriving DecidableEq, Repr

/-- `DATA_CATEGORIES[source]['cost_per_record']`: transactional 0.0001,
product 0.00005, marketing 0.00015, customer 0.0002.  The other catalog
fields (label, storage_multiplier, ...) are never read by the engine. -/
noncomputable def cost_per_record : DataSource → ℝ
  | .transactional => 1 / 10000
  | .product => 5 / 100000
  | .marketing => 15 / 100000
  | .customer => 2 / 10000

/-- One entry of `volume_estimates`: `estimates.get('daily', 0)`,
`estimates.get('historical', 0)`, `estimates.get('growth', 0)`; a missing
estimate is the all-zero record. -/
structure VolumeEstimate where
  daily : ℝ
  historical : ℝ
  growth : ℝ

/-- The dictionary returned by `calculate_costs`. -/
structure CostBreakdown where
  total_storage_gb : ℝ
  total_records_per_month : ℝ
  storage_cost : ℝ
  compute_cost : ℝ
  processing_cost : ℝ
  total_cost : ℝ
  breakdown : List (DataSource × ℝ × ℝ × ℝ)
  cloud_costs : CloudCosts ℝ
  provider : Option String

/-- `calculate_costs` (calculations.py lines 74-142).  A `none`
infrastructure is replaced by `{'type': 'new', 'provider': 'aws',
'preferred_provider': None}` (line 84); per source the loop accumulates
monthly records (growth formula), storage at 1 KB per record, and the
linear processing cost; the provider key is `provider` for an existing
infrastructure and `preferred_provider` otherwise; cloud costs come from
`calculate_detailed_cloud_costs` and the grand total is cloud total plus
processing. -/
noncomputable def calculate_costs (infrastructure : Option Infrastructure)
    (selected_sources : List DataSource)
    (volume_estimates : DataSource → VolumeEstimate) : CostBreakdown :=
  let infra := infrastructure.getD ⟨"new", some "aws", none⟩
  let perSource : List (DataSource × ℝ × ℝ × ℝ) :=
    selected_sources.map fun source =>
      let estimates := volume_estimates source
      let monthly_records := monthlyRecords estimates.daily estimates.growth
      let record_size_kb : ℝ := 1
      let storage_gb := (estimates.historical + monthly_records) * record_size_kb / (1024 * 1024)
      let source_processing_cost := monthly_records * cost_per_record source
      (source, monthly_records, storage_gb, source_processing_cost)
  let total_monthly_records := (perSource.map fun x => x.2.1).sum
  let total_storage_gb := (perSource.map fun x => x.2.2.1).sum
  let processing_cost := (perSource.map fun x => x.2.2.2).sum
  let total_historical_records :=
    (selected_sources.map fun s => (volume_estimates s).historical).sum
  let provider_key :=
    if infra.type = "existing" then infra.provider else infra.preferred_provider
  let cloud_costs :=
    calculate_detailed_cloud_costs provider_key total_storage_gb total_monthly_records
      total_historical_records
  { total_storage_gb := total_storage_gb
    total_records_per_month := total_monthly_records
    storage_cost := cloud_costs.total_storage_cost
    compute_cost := cloud_costs.total_compute_cost
    processing_cost := processing_cost
    total_cost := cloud_costs.total_cost + processing_cost
    breakdown := perSource
    cloud_costs := cloud_costs
    provider := provider_key }

/-- The statement of claim C7 follows the spec's wording: a fixed
per-thousand-rows rate keyed by tool name, with every unrecognized name
falling back to the lowest known rate 0.30. -/
def claimedExtractionRate (name : String) : ℚ :=
  if name = "Fivetran" then 5 / 10 else if name = "Stitch" then 4 / 10 else 3 / 10

/-- The warehousing tool the engine ends up using for a recognized
provider: `warehousing_options[0]`, i.e. BigQuery for gcp and Snowflake
for both aws and azure (for azure the options list is
`[Snowflake, BigQuery]` in catalog order and index 0 is Snowflake). -/
def whTool (p : String) : Tool := if p = "gcp" then bigquery else snowflake

/-! ## Theorems -/

/-! Evaluation lemmas for the per-layer selectors on the shipped catalog. -/

theorem eval_ext_simple : get_extraction_tool "simple" = some stitch := by
  simp only [get_extraction_tool, TOOLS_DATA_extraction, fivetran, rivery, stitch, airbyte,
    List.filter, pyMinBy, List.foldl, String.reduceEq, String.reduceBEq, reduceIte]
  norm_num

theorem eval_ext_balanced : get_extraction_tool "balanced" = some rivery := by
  simp only [get_extraction_tool, TOOLS_DATA_extraction, fivetran, rivery, stitch, airbyte,
    List.filter, pySortBy, orderedInsertBy, List.foldr, String.reduceEq, String.reduceBEq,
    reduceIte]
  norm_num

theorem eval_ext_advanced : get_extraction_tool "advanced" = some fivetran := by
  simp only [get_extraction_tool, TOOLS_DATA_extraction, fivetran, rivery, stitch, airbyte,
    List.filter, pySortBy, orderedInsertBy, List.foldr, String.reduceEq, String.reduceBEq,
    reduceIte]
  norm_num

theorem eval_mod_simple : get_modeling_tool "simple" = some dbt := by
  simp only [get_modeling_tool, TOOLS_DATA_modeling, dbt, dataform, pyMinBy, List.foldl,
    String.reduceEq, reduceIte]
  norm_num

theorem eval_mod_balanced : get_modeling_tool "balanced" = some dataform := by
  simp only [get_modeling_tool, TOOLS_DATA_modeling, dbt, dataform, pySortBy, orderedInsertBy,
    List.foldr, String.reduceEq, reduceIte]
  norm_num

theorem eval_mod_advanced : get_modeling_tool "advanced" = some dbt := by
  simp only [get_modeling_tool, TOOLS_DATA_modeling, dbt, dataform, pyMaxBy, List.foldl,
    String.reduceEq, reduceIte]
  norm_num

theorem eval_wh_aws : warehousingOptions (some "aws") = [snowflake] := by
  simp [warehousingOptions, TOOLS_DATA_warehousing, snowflake, bigquery, redshift]

theorem eval_wh_gcp : warehousingOptions (some "gcp") = [bigquery] := by
  simp [warehousingOptions, TOOLS_DATA_warehousing, snowflake, bigquery, redshift]

theorem eval_wh_azure : warehousingOptions (some "azure") = [snowflake, bigquery] := by
  simp [warehousingOptions, TOOLS_DATA_warehousing, snowflake, bigquery, redshift]

theorem eval_wh_other (p : Option String) (h1 : p ≠ some "aws") (h2 : p ≠ some "gcp")
    (h3 : p ≠ some "azure") : warehousingOptions p = [] := by
  simp [warehousingOptions, TOOLS_DATA_warehousing, snowflake, bigquery, redshift, h1, h2, h3]

theorem eval_viz_studio :
    TOOLS_DATA_visualization.find? (fun t => t.name == "Looker Studio") = some lookerStudio := by
  simp [TOOLS_DATA_visualization, List.find?, tableau, powerBI, lookerStudio, lookerEnterprise]

theorem eval_viz_powerbi :
    TOOLS_DATA_visualization.find? (fun t => t.name == "Power BI") = some powerBI := by
  simp [TOOLS_DATA_visualization, List.find?, tableau, powerBI, lookerStudio, lookerEnterprise]

theorem eval_viz_enterprise :
    TOOLS_DATA_visualization.find? (fun t => t.name == "Looker Enterprise") =
      some lookerEnterprise := by
  simp [TOOLS_DATA_visualization, List.find?, tableau, powerBI, lookerStudio, lookerEnterprise]

/-- For a recognized resolved provider the engine builds the same three
stacks, with the warehousing slot `warehousing_options[0]`. -/
theorem gsr_eq (rows : ℚ) (infra : Infrastructure) (seats : ℕ) (excl : Bool) (p : String)
    (hp : pyOr infra.provider infra.preferred_provider = some p)
    (hv : validProviderKey p = true) :
    get_stack_recommendations rows infra seats excl =
      ensureSimpleFirst (sortByTotal
        [buildRec "simple" stitch dbt (whTool p) lookerStudio rows
           (truncatePy (rows / 1000)) seats excl,
         buildRec "balanced" rivery dataform (whTool p) powerBI rows
           (truncatePy (rows / 1000)) seats excl,
         buildRec "advanced" fivetran dbt (whTool p) lookerEnterprise rows
           (truncatePy (rows / 1000)) seats excl]) := by
  simp only [validProviderKey, Bool.or_eq_true, decide_eq_true_eq] at hv
  unfold get_stack_recommendations
  rw [hp]
  rcases hv with (h | h) | h <;> subst h <;>
    simp [eval_ext_simple, eval_ext_balanced, eval_ext_advanced, eval_mod_simple,
      eval_mod_balanced, eval_mod_advanced, eval_wh_aws, eval_wh_gcp, eval_wh_azure,
      eval_viz_studio, eval_viz_powerbi, eval_viz_enterprise, whTool, bind, Option.bind]

/-- An empty warehousing candidate list makes the engine fail
(IndexError on `warehousing_options[0]`, i.e. `none` in the model). -/
theorem gsr_eq_none (rows : ℚ) (infra : Infrastructure) (seats : ℕ) (excl : Bool)
    (hw : warehousingOptions (pyOr infra.provider infra.preferred_provider) = []) :
    get_stack_recommendations rows infra seats excl = none := by
  unfold get_stack_recommendations
  simp [hw, eval_ext_simple, eval_ext_balanced, eval_ext_advanced, eval_mod_simple,
    eval_mod_balanced, eval_mod_advanced, bind, Option.bind]

/-- A successful run forces the resolved provider to be a recognized key. -/
theorem gsr_provider_of_some (rows : ℚ) (infra : Infrastructure) (seats : ℕ) (excl : Bool)
    (recs : List Recommendation)
    (h : get_stack_recommendations rows infra seats excl = some recs) :
    ∃ p, pyOr infra.provider infra.preferred_provider = some p ∧
      validProviderKey p = true := by
  by_contra hc
  push_neg at hc
  have hw : warehousingOptions (pyOr infra.provider infra.preferred_provider) = [] := by
    cases hpy : pyOr infra.provider infra.preferred_provider with
    | none => exact eval_wh_other none (by simp) (by simp) (by simp)
    | some p =>
      have hvp := hc p hpy
      refine eval_wh_other (some p) ?_ ?_ ?_ <;>
        · intro he
          apply hvp
          injection he with he
          subst he
          rfl
  rw [gsr_eq_none rows infra seats excl hw] at h
  exact Option.noConfusion h

/-- The sorted-then-swapped list is the simple stack followed by the other
two in one of the two orders. -/
theorem ensureSimple_sort_cases (r1 r2 r3 : Recommendation)
    (h1 : r1.level = "simple") (h2 : r2.level = "balanced") (h3 : r3.level = "advanced") :
    ensureSimpleFirst (sortByTotal [r1, r2, r3]) = some [r1, r2, r3] ∨
    ensureSimpleFirst (sortByTotal [r1, r2, r3]) = some [r1, r3, r2] := by
  have heq1 : (r1.level == "simple") = true := by simp [h1]
  have hne2 : (r2.level == "simple") = false := by simp [h2]
  have hne3 : (r3.level == "simple") = false := by simp [h3]
  simp only [sortByTotal, pySortBy, List.foldr, orderedInsertBy]
  rcases le_or_lt (totalKey r2) (totalKey r3) with h23 | h23
  · rw [if_pos h23]
    simp only [orderedInsertBy]
    rcases le_or_lt (totalKey r1) (totalKey r2) with h12 | h12
    · rw [if_pos h12]
      left
      simp [ensureSimpleFirst, h1]
    · rw [if_neg (not_le.mpr h12)]
      rcases le_or_lt (totalKey r1) (totalKey r3) with h13 | h13
      · rw [if_pos h13]
        left
        simp [ensureSimpleFirst, h1, h2, h3, heq1, hne2, hne3, List.findIdx?_cons]
      · rw [if_neg (not_le.mpr h13)]
        right
        simp [ensureSimpleFirst, h1, h2, h3, heq1, hne2, hne3, List.findIdx?_cons]
  · rw [if_neg (not_le.mpr h23)]
    simp only [orderedInsertBy]
    rcases le_or_lt (totalKey r1) (totalKey r3) with h13 | h13
    · rw [if_pos h13]
      right
      simp [ensureSimpleFirst, h1]
    · rw [if_neg (not_le.mpr h13)]
      rcases le_or_lt (totalKey r1) (totalKey r2) with h12 | h12
      · rw [if_pos h12]
        right
        simp [ensureSimpleFirst, h1, h2, h3, heq1, hne2, hne3, List.findIdx?_cons]
      · rw [if_neg (not_le.mpr h12)]
        left
        simp [ensureSimpleFirst, h1, h2, h3, heq1, hne2, hne3, List.findIdx?_cons]

/-! Projections of `buildRec`. -/

@[simp]
theorem buildRec_level (level : String) (ext mdl wh viz : Tool) (rows : ℚ) (models : ℤ)
    (seats : ℕ) (excl : Bool) :
    (buildRec level ext mdl wh viz rows models seats excl).level = level := rfl

@[simp]
theorem buildRec_extraction (level : String) (ext mdl wh viz : Tool) (rows : ℚ) (models : ℤ)
    (seats : ℕ) (excl : Bool) :
    (buildRec level ext mdl wh viz rows models seats excl).stack.extraction = ext := rfl

@[simp]
theorem buildRec_warehousing (level : String) (ext mdl wh viz : Tool) (rows : ℚ) (models : ℤ)
    (seats : ℕ) (excl : Bool) :
    (buildRec level ext mdl wh viz rows models seats excl).stack.warehousing = wh := rfl

@[simp]
theorem buildRec_stack_modeling (level : String) (ext mdl wh viz : Tool) (rows : ℚ)
    (models : ℤ) (seats : ℕ) (excl : Bool) :
    (buildRec level ext mdl wh viz rows models seats excl).stack.modeling =
      if excl then none else some mdl := rfl

@[simp]
theorem buildRec_costs_modeling (level : String) (ext mdl wh viz : Tool) (rows : ℚ)
    (models : ℤ) (seats : ℕ) (excl : Bool) :
    (buildRec level ext mdl wh viz rows models seats excl).costs.modeling =
      if excl then none
      else some ((models : ℚ) * (1 / 10000) + mdl.base_price) := rfl

/-- C2: `recommend_cloud_provider` follows the fixed two-threshold decision
table — growth above 50 always yields gcp (the two high-growth quadrants
collapse), and at growth at most 50 the volume threshold of 10,000,000
separates aws (above) from azure (at or below). -/
theorem c2_provider_decision_table (v g : ℚ) :
    recommend_cloud_provider v g =
      if 50 < g then "gcp" else if 10000000 < v then "aws" else "azure" := by
  unfold recommend_cloud_provider
  split_ifs <;> rfl

/-- C7: for every tool record and every nonnegative monthly volume,
`calculate_extraction_cost` is `base_price + ceil(monthly/1000) * rate`
with rate 0.50 for Fivetran, 0.40 for Stitch, and the lowest known rate
0.30 for every other name (Rivery included). -/
theorem c7_extraction_cost_formula :
    (∀ (tool : Tool) (m : ℚ), 0 ≤ m →
      calculate_extraction_cost tool m =
        tool.base_price + (⌈m / 1000⌉ : ℚ) * claimedExtractionRate tool.name) ∧
    claimedExtractionRate "Rivery" = 3 / 10 ∧
    claimedExtractionRate "Rivery" < claimedExtractionRate "Stitch" ∧
    claimedExtractionRate "Rivery" < claimedExtractionRate "Fivetran" := by
  refine ⟨fun tool m _ => ?_,
    by simp only [claimedExtractionRate, String.reduceEq, reduceIte],
    by simp only [claimedExtractionRate, String.reduceEq, reduceIte]; norm_num,
    by simp only [claimedExtractionRate, String.reduceEq, reduceIte]; norm_num⟩
  unfold calculate_extraction_cost claimedExtractionRate
  split_ifs <;> rfl

/-- Witness for C7 at the Rivery tool and 1500 monthly records. -/
theorem c7_witness :
    calculate_extraction_cost rivery 1500 =
      rivery.base_price + (⌈(1500 : ℚ) / 1000⌉ : ℚ) * claimedExtractionRate rivery.name :=
  c7_extraction_cost_formula.1 rivery 1500 (by norm_num)

/-- C8: at zero growth the compounding formula yields a monthly rate of
exactly 0 — `(1 + 0/100) ^ (1/12) - 1 = 0` — so the projected monthly
volume is exactly `daily * 30`. -/
theorem c8_zero_growth_monthly (d : ℝ) (_hd : 0 ≤ d) :
    monthlyRecords d 0 = d * 30 := by
  unfold monthlyRecords
  norm_num

/-- Witness for C8 at 5 daily records. -/
theorem c8_witness : monthlyRecords 5 0 = 5 * 30 :=
  c8_zero_growth_monthly 5 (by norm_num)

/-- C5: for every input whose resolved provider is recognized — any
volume, seat count and exclude-modeling flag — `get_stack_recommendations`
succeeds and returns exactly 3 entries whose level tags are
simple/balanced/advanced, with the entry tagged simple at position 0
regardless of the computed totals. -/
theorem c5_three_levels_simple_first (rows : ℚ) (infra : Infrastructure) (seats : ℕ)
    (excl : Bool) (p : String)
    (hp : pyOr infra.provider infra.preferred_provider = some p)
    (hv : validProviderKey p = true) :
    (get_stack_recommendations rows infra seats excl).isSome = true ∧
    ((get_stack_recommendations rows infra seats excl).getD []).length = 3 ∧
    (((get_stack_recommendations rows infra seats excl).getD []).map
      Recommendation.level).Perm ["simple", "balanced", "advanced"] ∧
    ((get_stack_recommendations rows infra seats excl).getD []).head?.map
      Recommendation.level = some "simple" := by
  rw [gsr_eq rows infra seats excl p hp hv]
  obtain h | h := ensureSimple_sort_cases
    (buildRec "simple" stitch dbt (whTool p) lookerStudio rows
      (truncatePy (rows / 1000)) seats excl)
    (buildRec "balanced" rivery dataform (whTool p) powerBI rows
      (truncatePy (rows / 1000)) seats excl)
    (buildRec "advanced" fivetran dbt (whTool p) lookerEnterprise rows
      (truncatePy (rows / 1000)) seats excl)
    rfl rfl rfl <;> rw [h]
  · exact ⟨rfl, rfl, by simp, rfl⟩
  · refine ⟨rfl, rfl, ?_, rfl⟩
    simp only [List.map, buildRec_level]
    exact List.Perm.cons _ (List.Perm.swap _ _ _)

/-- Witness for C5 at provider aws, zero volume, one seat, modeling kept. -/
theorem c5_witness :
    (get_stack_recommendations 0 ⟨"existing", some "aws", none⟩ 1 false).isSome = true ∧
    ((get_stack_recommendations 0 ⟨"existing", some "aws", none⟩ 1 false).getD []).length = 3 ∧
    (((get_stack_recommendations 0 ⟨"existing", some "aws", none⟩ 1 false).getD []).map
      Recommendation.level).Perm ["simple", "balanced", "advanced"] ∧
    ((get_stack_recommendations 0 ⟨"existing", some "aws", none⟩ 1 false).getD []).head?.map
      Recommendation.level = some "simple" :=
  c5_three_levels_simple_first 0 ⟨"existing", some "aws", none⟩ 1 false "aws"
    (by simp [pyOr]) (by decide)

/-- C9: the simple-level extraction candidates tie at 450 under
`base_price + complexity*50` (Stitch 400+50, Airbyte 300+150), and the
filtered catalog order is `[Stitch, Airbyte]`, so Python `min` resolves
the tie to Stitch: the simple stack's extraction tool is Stitch for every
provider and volume. -/
theorem c9_simple_extraction_stitch :
    stitch.base_price + stitch.complexity * 50 =
      airbyte.base_price + airbyte.complexity * 50 ∧
    TOOLS_DATA_extraction.filter (fun t => t.name == "Airbyte" || t.name == "Stitch") =
      [stitch, airbyte] ∧
    ∀ (rows : ℚ) (infra : Infrastructure) (seats : ℕ) (excl : Bool)
      (recs : List Recommendation),
      get_stack_recommendations rows infra seats excl = some recs →
      ∀ r ∈ recs, r.level = "simple" → r.stack.extraction = stitch := by
  refine ⟨by norm_num [stitch, airbyte],
    by simp [TOOLS_DATA_extraction, fivetran, rivery, stitch, airbyte], ?_⟩
  intro rows infra seats excl recs hrecs r hr hlevel
  obtain ⟨p, hp, hv⟩ := gsr_provider_of_some rows infra seats excl recs hrecs
  rw [gsr_eq rows infra seats excl p hp hv] at hrecs
  obtain h | h := ensureSimple_sort_cases
    (buildRec "simple" stitch dbt (whTool p) lookerStudio rows
      (truncatePy (rows / 1000)) seats excl)
    (buildRec "balanced" rivery dataform (whTool p) powerBI rows
      (truncatePy (rows / 1000)) seats excl)
    (buildRec "advanced" fivetran dbt (whTool p) lookerEnterprise rows
      (truncatePy (rows / 1000)) seats excl)
    rfl rfl rfl <;>
  · rw [h] at hrecs
    injection hrecs with hrecs
    subst hrecs
    simp only [List.mem_cons, List.not_mem_nil, or_false] at hr
    rcases hr with rfl | rfl | rfl
    · rfl
    · simp at hlevel
    · simp at hlevel

/-- Witness for C9 at provider aws, zero volume, one seat, modeling kept. -/
theorem c9_witness :
    (buildRec "simple" stitch dbt (whTool "aws") lookerStudio 0
      (truncatePy (0 / 1000)) 1 false).stack.extraction = stitch := by
  have hp : pyOr (some "aws") none = some "aws" := by simp [pyOr]
  have heq := gsr_eq 0 ⟨"existing", some "aws", none⟩ 1 false "aws" hp (by decide)
  obtain h | h := ensureSimple_sort_cases
    (buildRec "simple" stitch dbt (whTool "aws") lookerStudio 0
      (truncatePy (0 / 1000)) 1 false)
    (buildRec "balanced" rivery dataform (whTool "aws") powerBI 0
      (truncatePy (0 / 1000)) 1 false)
    (buildRec "advanced" fivetran dbt (whTool "aws") lookerEnterprise 0
      (truncatePy (0 / 1000)) 1 false)
    rfl rfl rfl
  · exact c9_simple_extraction_stitch.2.2 0 _ 1 false _ (heq.trans h) _ (by simp) rfl
  · exact c9_simple_extraction_stitch.2.2 0 _ 1 false _ (heq.trans h) _ (by simp) rfl

/-- C10: both catalog modeling tools have complexity 2, so the
maximum-by-complexity used for the advanced level resolves by catalog
order to dbt, which is also the minimum-by-base-price used for the simple
level: whenever modeling is included, simple and advanced carry the same
modeling tool, dbt. -/
theorem c10_modeling_advanced_eq_simple :
    dbt.complexity = dataform.complexity ∧
    get_modeling_tool "advanced" = get_modeling_tool "simple" ∧
    get_modeling_tool "simple" = some dbt ∧
    ∀ (rows : ℚ) (infra : Infrastructure) (seats : ℕ) (recs : List Recommendation),
      get_stack_recommendations rows infra seats false = some recs →
      ∀ r ∈ recs, r.level = "simple" ∨ r.level = "advanced" →
        r.stack.modeling = some dbt := by
  refine ⟨rfl, eval_mod_advanced.trans eval_mod_simple.symm, eval_mod_simple, ?_⟩
  intro rows infra seats recs hrecs r hr hlevel
  obtain ⟨p, hp, hv⟩ := gsr_provider_of_some rows infra seats false recs hrecs
  rw [gsr_eq rows infra seats false p hp hv] at hrecs
  obtain h | h := ensureSimple_sort_cases
    (buildRec "simple" stitch dbt (whTool p) lookerStudio rows
      (truncatePy (rows / 1000)) seats false)
    (buildRec "balanced" rivery dataform (whTool p) powerBI rows
      (truncatePy (rows / 1000)) seats false)
    (buildRec "advanced" fivetran dbt (whTool p) lookerEnterprise rows
      (truncatePy (rows / 1000)) seats false)
    rfl rfl rfl <;>
  · rw [h] at hrecs
    injection hrecs with hrecs
    subst hrecs
    simp only [List.mem_cons, List.not_mem_nil, or_false] at hr
    rcases hr with rfl | rfl | rfl <;> first | rfl | simp at hlevel

/-- Witness for C10 at provider aws, zero volume, one seat. -/
theorem c10_witness :
    (buildRec "advanced" fivetran dbt (whTool "aws") lookerEnterprise 0
      (truncatePy (0 / 1000)) 1 false).stack.modeling = some dbt := by
  have hp : pyOr (some "aws") none = some "aws" := by simp [pyOr]
  have heq := gsr_eq 0 ⟨"existing", some "aws", none⟩ 1 false "aws" hp (by decide)
  obtain h | h := ensureSimple_sort_cases
    (buildRec "simple" stitch dbt (whTool "aws") lookerStudio 0
      (truncatePy (0 / 1000)) 1 false)
    (buildRec "balanced" rivery dataform (whTool "aws") powerBI 0
      (truncatePy (0 / 1000)) 1 false)
    (buildRec "advanced" fivetran dbt (whTool "aws") lookerEnterprise 0
      (truncatePy (0 / 1000)) 1 false)
    rfl rfl rfl
  · exact c10_modeling_advanced_eq_simple.2.2.2 0 _ 1 _ (heq.trans h) _ (by simp)
      (Or.inr rfl)
  · exact c10_modeling_advanced_eq_simple.2.2.2 0 _ 1 _ (heq.trans h) _ (by simp)
      (Or.inr rfl)

/-- C6: with `exclude_modeling` set, no returned recommendation carries a
modeling key in its stack or its costs, and each total is the sum of the
extraction, warehousing and visualization costs alone. -/
theorem c6_exclude_modeling :
    ∀ (rows : ℚ) (infra : Infrastructure) (seats : ℕ) (recs : List Recommendation),
      get_stack_recommendations rows infra seats true = some recs →
      ∀ r ∈ recs, r.stack.modeling = none ∧ r.costs.modeling = none ∧
        r.costs.total = r.costs.extraction + r.costs.warehousing + r.costs.visualization := by
  intro rows infra seats recs hrecs r hr
  obtain ⟨p, hp, hv⟩ := gsr_provider_of_some rows infra seats true recs hrecs
  rw [gsr_eq rows infra seats true p hp hv] at hrecs
  obtain h | h := ensureSimple_sort_cases
    (buildRec "simple" stitch dbt (whTool p) lookerStudio rows
      (truncatePy (rows / 1000)) seats true)
    (buildRec "balanced" rivery dataform (whTool p) powerBI rows
      (truncatePy (rows / 1000)) seats true)
    (buildRec "advanced" fivetran dbt (whTool p) lookerEnterprise rows
      (truncatePy (rows / 1000)) seats true)
    rfl rfl rfl <;>
  · rw [h] at hrecs
    injection hrecs with hrecs
    subst hrecs
    simp only [List.mem_cons, List.not_mem_nil, or_false] at hr
    rcases hr with rfl | rfl | rfl <;> exact ⟨rfl, rfl, by simp [buildRec]⟩

/-- Witness for C6 at provider aws, zero volume, one seat. -/
theorem c6_witness :
    (buildRec "simple" stitch dbt (whTool "aws") lookerStudio 0
        (truncatePy (0 / 1000)) 1 true).stack.modeling = none ∧
    (buildRec "simple" stitch dbt (whTool "aws") lookerStudio 0
        (truncatePy (0 / 1000)) 1 true).costs.modeling = none ∧
    (buildRec "simple" stitch dbt (whTool "aws") lookerStudio 0
        (truncatePy (0 / 1000)) 1 true).costs.total =
      (buildRec "simple" stitch dbt (whTool "aws") lookerStudio 0
        (truncatePy (0 / 1000)) 1 true).costs.extraction +
      (buildRec "simple" stitch dbt (whTool "aws") lookerStudio 0
        (truncatePy (0 / 1000)) 1 true).costs.warehousing +
      (buildRec "simple" stitch dbt (whTool "aws") lookerStudio 0
        (truncatePy (0 / 1000)) 1 true).costs.visualization := by
  have hp : pyOr (some "aws") none = some "aws" := by simp [pyOr]
  have heq := gsr_eq 0 ⟨"existing", some "aws", none⟩ 1 true "aws" hp (by decide)
  obtain h | h := ensureSimple_sort_cases
    (buildRec "simple" stitch dbt (whTool "aws") lookerStudio 0
      (truncatePy (0 / 1000)) 1 true)
    (buildRec "balanced" rivery dataform (whTool "aws") powerBI 0
      (truncatePy (0 / 1000)) 1 true)
    (buildRec "advanced" fivetran dbt (whTool "aws") lookerEnterprise 0
      (truncatePy (0 / 1000)) 1 true)
    rfl rfl rfl
  · exact c6_exclude_modeling 0 _ 1 _ (heq.trans h) _ (by simp)
  · exact c6_exclude_modeling 0 _ 1 _ (heq.trans h) _ (by simp)

/-- C1 is false on the code: for azure the candidate minimizing
`base_price + complexity*100` is BigQuery (900 < 1200), yet at the
concrete input (azure, zero volume, one seat, modeling kept) all three
stack levels carry Snowflake — the engine takes `warehousing_options[0]`,
the first candidate in catalog order, never the score minimizer. -/
theorem c1_counterexample :
    bigquery.base_price + bigquery.complexity * 100 <
      snowflake.base_price + snowflake.complexity * 100 ∧
    snowflake ≠ bigquery ∧
    ((get_stack_recommendations 0 ⟨"existing", some "azure", none⟩ 1 false).getD []).map
      (fun r => r.stack.warehousing) = [snowflake, snowflake, snowflake] := by
  refine ⟨by norm_num [bigquery, snowflake], by simp [snowflake, bigquery], ?_⟩
  rw [gsr_eq 0 ⟨"existing", some "azure", none⟩ 1 false "azure" (by simp [pyOr]) (by decide)]
  obtain h | h := ensureSimple_sort_cases
    (buildRec "simple" stitch dbt (whTool "azure") lookerStudio 0
      (truncatePy (0 / 1000)) 1 false)
    (buildRec "balanced" rivery dataform (whTool "azure") powerBI 0
      (truncatePy (0 / 1000)) 1 false)
    (buildRec "advanced" fivetran dbt (whTool "azure") lookerEnterprise 0
      (truncatePy (0 / 1000)) 1 false)
    rfl rfl rfl <;> rw [h] <;> simp [whTool]

/-- C1 amended: for azure the warehousing candidate list is
`[Snowflake, BigQuery]` in catalog order, and the tool used in all three
stack levels is its element 0, Snowflake — not the minimizer of
`base_price + complexity*100`. -/
theorem c1_azure_warehousing :
    warehousingOptions (some "azure") = [snowflake, bigquery] ∧
    ∀ (rows : ℚ) (infra : Infrastructure) (seats : ℕ) (excl : Bool)
      (recs : List Recommendation),
      pyOr infra.provider infra.preferred_provider = some "azure" →
      get_stack_recommendations rows infra seats excl = some recs →
      ∀ r ∈ recs, r.stack.warehousing = snowflake := by
  refine ⟨eval_wh_azure, ?_⟩
  intro rows infra seats excl recs hp hrecs r hr
  rw [gsr_eq rows infra seats excl "azure" hp (by decide)] at hrecs
  obtain h | h := ensureSimple_sort_cases
    (buildRec "simple" stitch dbt (whTool "azure") lookerStudio rows
      (truncatePy (rows / 1000)) seats excl)
    (buildRec "balanced" rivery dataform (whTool "azure") powerBI rows
      (truncatePy (rows / 1000)) seats excl)
    (buildRec "advanced" fivetran dbt (whTool "azure") lookerEnterprise rows
      (truncatePy (rows / 1000)) seats excl)
    rfl rfl rfl <;>
  · rw [h] at hrecs
    injection hrecs with hrecs
    subst hrecs
    simp only [List.mem_cons, List.not_mem_nil, or_false] at hr
    rcases hr with rfl | rfl | rfl <;> simp [whTool]

/-- Witness for the amended C1 at zero volume, one seat, modeling kept. -/
theorem c1_witness :
    (buildRec "simple" stitch dbt (whTool "azure") lookerStudio 0
      (truncatePy (0 / 1000)) 1 false).stack.warehousing = snowflake := by
  have hp : pyOr (some "azure") none = some "azure" := by simp [pyOr]
  have heq := gsr_eq 0 ⟨"existing", some "azure", none⟩ 1 false "azure" hp (by decide)
  obtain h | h := ensureSimple_sort_cases
    (buildRec "simple" stitch dbt (whTool "azure") lookerStudio 0
      (truncatePy (0 / 1000)) 1 false)
    (buildRec "balanced" rivery dataform (whTool "azure") powerBI 0
      (truncatePy (0 / 1000)) 1 false)
    (buildRec "advanced" fivetran dbt (whTool "azure") lookerEnterprise 0
      (truncatePy (0 / 1000)) 1 false)
    rfl rfl rfl
  · exact c1_azure_warehousing.2 0 _ 1 false _ hp (heq.trans h) _ (by simp)
  · exact c1_azure_warehousing.2 0 _ 1 false _ hp (heq.trans h) _ (by simp)

/-- C3 is false on the code: an unrecognized provider key is silently
replaced by aws only in the cloud-cost calculation; in
`get_stack_recommendations` the key "foo" leaves the warehousing candidate
list empty and the operation fails (IndexError, `none` in the model)
instead of completing with the default provider. -/
theorem c3_counterexample :
    get_stack_recommendations 0 ⟨"existing", some "foo", none⟩ 1 false = none := by
  apply gsr_eq_none
  refine eval_wh_other _ ?_ ?_ ?_ <;> simp [pyOr]

/-- C3 amended: an invalid provider key falls back to aws in
`calculate_detailed_cloud_costs`, which completes; but
`get_stack_recommendations` with that key fails (returns `none`) because
its warehousing filter matches nothing. -/
theorem c3_invalid_provider (k : String) (hk : validProviderKey k = false) :
    (∀ s m h : ℚ, calculate_detailed_cloud_costs (some k) s m h =
      calculate_detailed_cloud_costs (some "aws") s m h) ∧
    ∀ (rows : ℚ) (seats : ℕ) (excl : Bool),
      get_stack_recommendations rows ⟨"existing", some k, none⟩ seats excl = none := by
  have hres : resolveProviderKey (some k) = "aws" := by
    simp [resolveProviderKey, hk]
  constructor
  · intro s m h
    unfold calculate_detailed_cloud_costs
    rw [hres, show resolveProviderKey (some "aws") = "aws" from rfl]
  · intro rows seats excl
    apply gsr_eq_none
    refine eval_wh_other _ ?_ ?_ ?_ <;>
    · intro he
      simp only [pyOr] at he
      split_ifs at he <;>
        first
          | exact Option.noConfusion he
          | (injection he with he
             subst he
             simp [validProviderKey] at hk)

/-- Witness for the amended C3 at the concrete invalid key "foo". -/
theorem c3_witness :
    calculate_detailed_cloud_costs (K := ℚ) (some "foo") 1 2 3 =
      calculate_detailed_cloud_costs (some "aws") 1 2 3 ∧
    get_stack_recommendations 0 ⟨"existing", some "foo", none⟩ 1 true = none :=
  ⟨(c3_invalid_provider "foo" (by decide)).1 1 2 3,
   (c3_invalid_provider "foo" (by decide)).2 0 1 true⟩

/-- C4 is false on the code: with no selected sources the computation does
complete, and the storage and processing totals are zero, but the compute
total is the fixed always-on medium-instance cost — for aws,
0.096 × 720 = 69.12 ≠ 0. -/
theorem c4_counterexample :
    (calculate_costs (some ⟨"existing", some "aws", none⟩) []
      fun _ => ⟨0, 0, 0⟩).compute_cost ≠ 0 := by
  unfold calculate_costs calculate_detailed_cloud_costs
  norm_num [resolveProviderKey, validProviderKey, mediumInstanceRate, dataProcessingRate]

/-- C4 amended: on an empty source list `calculate_costs` completes, its
storage, processing and storage-volume totals are zero, but its compute
total equals the resolved provider's medium-instance hourly rate times
720 hours, and the grand total equals that compute cost. -/
theorem c4_empty_sources (infrastructure : Option Infrastructure)
    (volume_estimates : DataSource → VolumeEstimate) :
    (calculate_costs infrastructure [] volume_estimates).total_storage_gb = 0 ∧
    (calculate_costs infrastructure [] volume_estimates).storage_cost = 0 ∧
    (calculate_costs infrastructure [] volume_estimates).processing_cost = 0 ∧
    (calculate_costs infrastructure [] volume_estimates).compute_cost =
      mediumInstanceRate ℝ (resolveProviderKey
        (calculate_costs infrastructure [] volume_estimates).provider) * 720 ∧
    (calculate_costs infrastructure [] volume_estimates).total_cost =
      (calculate_costs infrastructure [] volume_estimates).compute_cost := by
  unfold calculate_costs calculate_detailed_cloud_costs
  norm_num
  split_ifs <;> norm_num

end DataStack
